import Mathlib

/-!
# Gargantua frame-synchronization core: a shallow embedding

This file embeds, in Lean, the frame-synchronization and GPU resource
lifecycle engine of the Gargantua repository:

* `Swapchain` (swapchain.cpp / swapchain.h): extent selection
  (`chooseSwapExtent`), recreation with its minimized-window wait loop
  (`recreate`), image acquisition with internal recreation on an
  out-of-date result (`acquireNextImage`), and presentation
  (`present`).
* `ComputePipeline` (compute_pipeline.cpp / compute_pipeline.h): the
  pipeline-layout creation (`createPipelineLayout`), the per-frame
  `dispatch` recording (commands recorded into the compute and graphics
  command buffers, the two queue submissions and their semaphore wiring,
  and the trailing `vkQueueWaitIdle` on the graphics queue), and
  `recreate` of the offscreen storage image.
* The interaction of the two (main.cpp frame loop) as a small state
  machine over extents, used to examine the storage-extent invariant.

Machine integers (`uint32_t`) are modelled as `Nat`, with an explicit
`% 2 ^ 32` exactly where the C++ performs wrapping unsigned arithmetic.
GPU handles (semaphores, images) are modelled as `Nat` identifiers;
`VkSemaphore` parameters that the code compares against `VK_NULL_HANDLE`
are modelled as `Option Nat` (`none` = null handle).  Host calls that can
block forever (the minimized-window wait loop) are modelled by functions
into `Option`, with `none` for "blocks forever"; thrown
`std::runtime_error`s are modelled with `Except String`.
-/

namespace Gargantua

/-- `VkExtent2D`: a width/height pair of `uint32_t`, modelled as `Nat`. -/
structure Extent2D where
  width : Nat
  height : Nat
deriving DecidableEq, Repr

/-- The subset of `VkResult` values the swapchain code distinguishes:
`VK_SUCCESS`, `VK_SUBOPTIMAL_KHR`, `VK_ERROR_OUT_OF_DATE_KHR`, and a
representative of every other (failure) result. -/
inductive VkResult where
  | success
  | suboptimal
  | errorOutOfDate
  | errorOther
deriving DecidableEq, Repr

/-- `std::numeric_limits<uint32_t>::max()`. -/
def uint32Max : Nat := 4294967295

/-- `VkSurfaceCapabilitiesKHR`, restricted to the fields
`Swapchain::chooseSwapExtent` reads. -/
structure SurfaceCapabilities where
  currentExtent : Extent2D
  minImageExtent : Extent2D
  maxImageExtent : Extent2D
deriving DecidableEq, Repr

/-- `std::clamp(v, lo, hi)` on `uint32_t` (defined for `lo ≤ hi`; the
C++ order of comparisons is `v < lo ? lo : hi < v ? hi : v`). -/
def cppClamp (v lo hi : Nat) : Nat :=
  if v < lo then lo else if hi < v then hi else v

/-- `Swapchain::chooseSwapExtent` (swapchain.cpp lines 80-91): if the
surface reports a defined current extent (width different from the
`uint32_t` maximum) return it; otherwise take the live framebuffer size
`fb` and clamp each component to the surface's min/max image extent. -/
def chooseSwapExtent (caps : SurfaceCapabilities) (fb : Extent2D) : Extent2D :=
  if caps.currentExtent.width ≠ uint32Max then
    caps.currentExtent
  else
    { width := cppClamp fb.width caps.minImageExtent.width caps.maxImageExtent.width
      height := cppClamp fb.height caps.minImageExtent.height caps.maxImageExtent.height }

/-- The minimized-window wait loop of `Swapchain::recreate`
(swapchain.cpp lines 178-182): repeatedly read the framebuffer size and
poll window events until the size is nonzero in both components.
`reads` is the sequence of framebuffer sizes observed by successive
reads; the result is the first read with both components nonzero
(`none` models the loop blocking forever because every observed size is
zero-sized). -/
def firstNonzeroFb : List Extent2D → Option Extent2D
  | [] => none
  | e :: rest =>
    if e.width = 0 ∨ e.height = 0 then firstNonzeroFb rest else some e

/-- The extent chosen by `Swapchain::recreate` (swapchain.cpp lines
177-190): block until the framebuffer is nonzero-sized, then rebuild the
chain, whose extent `createSwapchain` computes by `chooseSwapExtent`
against the surface capabilities queried at that moment.  `caps` gives
the capabilities the surface reports as a function of the live
framebuffer size; `none` models the wait loop never terminating. -/
def recreateExtent (caps : Extent2D → SurfaceCapabilities)
    (reads : List Extent2D) : Option Extent2D :=
  (firstNonzeroFb reads).map fun fb => chooseSwapExtent (caps fb) fb

/-- Outcome of `Swapchain::acquireNextImage`: the thrown message or the
returned image index, together with how many internal chain recreations
and how many `vkAcquireNextImageKHR` calls were made. -/
structure AcquireOutcome where
  result : Except String Nat
  recreates : Nat
  attempts : Nat
deriving Repr

/-- `Swapchain::acquireNextImage` (swapchain.cpp lines 194-221): a first
acquisition attempt returns `firstRes` (index `firstIdx`); if that
result is `VK_ERROR_OUT_OF_DATE_KHR` the chain is recreated and a single
retry returns `retryRes` (index `retryIdx`).  The final result, if
neither `VK_SUCCESS` nor `VK_SUBOPTIMAL_KHR`, raises a fatal error;
otherwise the image index of the last attempt is returned. -/
def acquireNextImage (firstRes : VkResult) (firstIdx : Nat)
    (retryRes : VkResult) (retryIdx : Nat) : AcquireOutcome :=
  if firstRes = .errorOutOfDate then
    if retryRes ≠ .success ∧ retryRes ≠ .suboptimal then
      { result := .error "[Swapchain] Failed to acquire swapchain image."
        recreates := 1, attempts := 2 }
    else
      { result := .ok retryIdx, recreates := 1, attempts := 2 }
  else
    if firstRes ≠ .success ∧ firstRes ≠ .suboptimal then
      { result := .error "[Swapchain] Failed to acquire swapchain image."
        recreates := 0, attempts := 1 }
    else
      { result := .ok firstIdx, recreates := 0, attempts := 1 }

/-- Outcome of `Swapchain::present`: normal return or thrown message,
together with how many internal chain recreations were made. -/
structure PresentOutcome where
  result : Except String Unit
  recreates : Nat
deriving Repr

/-- `Swapchain::present` (swapchain.cpp lines 223-241): submit the image
for presentation; on `VK_ERROR_OUT_OF_DATE_KHR` or `VK_SUBOPTIMAL_KHR`
recreate the chain and return; on any other non-success raise a fatal
error; otherwise return normally.  `res` is the `vkQueuePresentKHR`
result. -/
def present (res : VkResult) : PresentOutcome :=
  if res = .errorOutOfDate ∨ res = .suboptimal then
    { result := .ok (), recreates := 1 }
  else if res ≠ .success then
    { result := .error "[Swapchain] Failed to present swapchain image."
      recreates := 0 }
  else
    { result := .ok (), recreates := 0 }

/-! ## ComputePipeline: pipeline layout and per-frame dispatch -/

/-- The `VkImageLayout` values the frame scheduler's barriers use. -/
inductive ImageLayout where
  | undefined
  | general
  | transferSrcOptimal
  | transferDstOptimal
  | presentSrc
deriving DecidableEq, Repr

/-- The images the frame scheduler's barriers touch: the offscreen
storage image, or the acquired swapchain image with its index. -/
inductive ImageId where
  | storage
  | swap (index : Nat)
deriving DecidableEq, Repr

/-- Pipeline stages appearing in the recorded barriers and in the
semaphore wait/signal stage masks of the two queue submissions. -/
inductive Stage where
  | topOfPipe
  | computeShader
  | blit
  | transfer
  | allCommands
  | noneStage
deriving DecidableEq, Repr

/-- A `VkImageMemoryBarrier2`, restricted to the fields that carry the
ordering/layout content (image, old and new layout, source and
destination stage). -/
structure ImageBarrier where
  image : ImageId
  oldLayout : ImageLayout
  newLayout : ImageLayout
  srcStage : Stage
  dstStage : Stage
deriving DecidableEq, Repr

/-- A command recorded into a command buffer by
`ComputePipeline::dispatch`.  The `pushConstants` constructor models the
per-dispatch data-push mechanism (`vkCmdPushConstants`), with the pushed
record as four `Float`-slots; it is part of the command vocabulary so
that its (non-)occurrence in the recorded stream can be stated. -/
inductive Cmd where
  | bindPipeline
  | bindDescriptorSets
  | pushConstants (panX panY zoom time : Nat)
  | dispatchCmd (x y z : Nat)
  | pipelineBarrier (barriers : List ImageBarrier)
  | blitImage (src dst : ImageId) (srcExtent dstExtent : Extent2D)
deriving DecidableEq, Repr

/-- `VkPipelineLayoutCreateInfo` as filled by
`ComputePipeline::createPipelineLayout` (compute_pipeline.cpp lines
87-96), restricted to the set-layout count and the push-constant ranges.
A push-constant range is (offset, size) in bytes. -/
structure PipelineLayoutInfo where
  setLayoutCount : Nat
  pushConstantRanges : List (Nat × Nat)
deriving DecidableEq, Repr

/-- The pipeline layout the code creates: one descriptor-set layout and
no push-constant range (the create-info is zero-initialized and the code
sets only `setLayoutCount`/`pSetLayouts`). -/
def createPipelineLayout : PipelineLayoutInfo :=
  { setLayoutCount := 1, pushConstantRanges := [] }

/-- The workgroup counts `ComputePipeline::dispatch` computes
(compute_pipeline.cpp lines 332-333): `(extent.width + 15) / 16` and
`(extent.height + 15) / 16` in `uint32_t` arithmetic (the addition wraps
modulo `2 ^ 32`). -/
def workgroupCounts (extent : Extent2D) : Nat × Nat :=
  (((extent.width + 15) % 2 ^ 32) / 16, ((extent.height + 15) % 2 ^ 32) / 16)

/-- The barrier recorded into the compute command buffer
(compute_pipeline.cpp lines 337-353): storage image, general →
transfer-source, compute-shader stage → transfer stage. -/
def storageToSrcBarrier : ImageBarrier :=
  { image := .storage, oldLayout := .general, newLayout := .transferSrcOptimal
    srcStage := .computeShader, dstStage := .transfer }

/-- First barrier of the graphics command buffer (compute_pipeline.cpp
lines 391-406): acquired swapchain image, undefined → transfer-dest. -/
def presentToDstBarrier (imageIndex : Nat) : ImageBarrier :=
  { image := .swap imageIndex, oldLayout := .undefined
    newLayout := .transferDstOptimal, srcStage := .noneStage, dstStage := .blit }

/-- End-of-frame barrier on the swapchain image (compute_pipeline.cpp
lines 429-439): transfer-dest → present-source. -/
def dstToPresentBarrier (imageIndex : Nat) : ImageBarrier :=
  { image := .swap imageIndex, oldLayout := .transferDstOptimal
    newLayout := .presentSrc, srcStage := .blit, dstStage := .noneStage }

/-- End-of-frame barrier on the storage image (compute_pipeline.cpp
lines 441-451): transfer-source → general, back to compute writes. -/
def storageBackBarrier : ImageBarrier :=
  { image := .storage, oldLayout := .transferSrcOptimal, newLayout := .general
    srcStage := .blit, dstStage := .computeShader }

/-- The command stream `ComputePipeline::dispatch` records into the
compute command buffer (compute_pipeline.cpp lines 322-354): bind
pipeline, bind descriptor set, dispatch `ceil(extent/16)` workgroups per
axis, then the general → transfer-source barrier on the storage image.
No other command is recorded. -/
def dispatchComputeCmds (extent : Extent2D) : List Cmd :=
  [ .bindPipeline
  , .bindDescriptorSets
  , .dispatchCmd (workgroupCounts extent).1 (workgroupCounts extent).2 1
  , .pipelineBarrier [storageToSrcBarrier] ]

/-- The command stream `ComputePipeline::dispatch` records into the
graphics command buffer (compute_pipeline.cpp lines 383-459): swapchain
image to transfer-dest, full-extent blit storage → swapchain, then the
two end-of-frame barriers. -/
def dispatchGraphicsCmds (extent : Extent2D) (imageIndex : Nat) : List Cmd :=
  [ .pipelineBarrier [presentToDstBarrier imageIndex]
  , .blitImage .storage (.swap imageIndex) extent extent
  , .pipelineBarrier [dstToPresentBarrier imageIndex, storageBackBarrier] ]

/-- A semaphore wait/signal entry of a `VkSubmitInfo2`
(`VkSemaphoreSubmitInfo`): the semaphore handle and its stage mask. -/
structure SemaphoreOp where
  sem : Nat
  stage : Stage
deriving DecidableEq, Repr

/-- A `VkSubmitInfo2`: the semaphores waited on and signaled. -/
structure SubmitInfo2 where
  waits : List SemaphoreOp
  signals : List SemaphoreOp
deriving DecidableEq, Repr

/-- The compute-queue submission built by `ComputePipeline::dispatch`
(compute_pipeline.cpp lines 356-380): wait on the caller's
`waitSemaphore` at the compute stage only when one is provided, signal
the internal `computeFinished_` semaphore (`cf`) at the compute stage. -/
def computeSubmit (cf : Nat) (waitSemaphore : Option Nat) : SubmitInfo2 :=
  { waits :=
      match waitSemaphore with
      | some w => [{ sem := w, stage := .computeShader }]
      | none => []
    signals := [{ sem := cf, stage := .computeShader }] }

/-- The graphics-queue submission built by `ComputePipeline::dispatch`
(compute_pipeline.cpp lines 461-483): wait on the internal
`computeFinished_` semaphore (`cf`) at the blit stage, signal the
caller's `signalSemaphore` at the all-commands stage only when one is
provided. -/
def graphicsSubmit (cf : Nat) (signalSemaphore : Option Nat) : SubmitInfo2 :=
  { waits := [{ sem := cf, stage := .blit }]
    signals :=
      match signalSemaphore with
      | some s => [{ sem := s, stage := .allCommands }]
      | none => [] }

/-- The two hardware queues the dispatch path touches. -/
inductive QueueId where
  | computeQ
  | graphicsQ
deriving DecidableEq, Repr

/-- A host-side action `ComputePipeline::dispatch` performs, in order:
recording is abstracted into the recorded command list, a submission
carries its `VkSubmitInfo2`, and `queueWaitIdle` is the blocking
`vkQueueWaitIdle` call. -/
inductive HostAction where
  | record (queue : QueueId) (cmds : List Cmd)
  | submit (queue : QueueId) (info : SubmitInfo2)
  | queueWaitIdle (queue : QueueId)
deriving DecidableEq, Repr

/-- Everything `ComputePipeline::dispatch` (compute_pipeline.cpp lines
321-487, as implemented) produces for one frame, given the current
swapchain extent, the acquired image index, the two caller-supplied
semaphores, and the internal `computeFinished_` handle `cf`.  Note the
implemented signature takes no dispatch payload. -/
structure DispatchRecord where
  computeCmds : List Cmd
  graphicsCmds : List Cmd
  computeSubmission : SubmitInfo2
  graphicsSubmission : SubmitInfo2
  hostActions : List HostAction
deriving Repr

/-- The full embedding of `ComputePipeline::dispatch`:  record and
submit the compute buffer, record and submit the graphics buffer, then
block until the graphics queue is idle. -/
def dispatchRecord (extent : Extent2D) (imageIndex : Nat)
    (waitSemaphore signalSemaphore : Option Nat) (cf : Nat) : DispatchRecord :=
  { computeCmds := dispatchComputeCmds extent
    graphicsCmds := dispatchGraphicsCmds extent imageIndex
    computeSubmission := computeSubmit cf waitSemaphore
    graphicsSubmission := graphicsSubmit cf signalSemaphore
    hostActions :=
      [ .record .computeQ (dispatchComputeCmds extent)
      , .submit .computeQ (computeSubmit cf waitSemaphore)
      , .record .graphicsQ (dispatchGraphicsCmds extent imageIndex)
      , .submit .graphicsQ (graphicsSubmit cf signalSemaphore)
      , .queueWaitIdle .graphicsQ ] }

/-- Is a recorded command a use of the per-dispatch data-push mechanism
(`vkCmdPushConstants`)? -/
def Cmd.isPushConstants : Cmd → Bool
  | .pushConstants _ _ _ _ => true
  | _ => false

/-! ## Image-layout semantics of the recorded barriers -/

/-- The barriers a recorded command carries. -/
def Cmd.barriers : Cmd → List ImageBarrier
  | .pipelineBarrier bs => bs
  | _ => []

/-- The barriers a dispatch records on the offscreen storage image, in
recorded order (compute buffer first, then graphics buffer). -/
def storageBarriers (r : DispatchRecord) : List ImageBarrier :=
  ((r.computeCmds ++ r.graphicsCmds).flatMap Cmd.barriers).filter
    fun b => b.image == ImageId.storage

/-- Apply one layout-transition barrier to a tracked layout: the barrier
is well-formed only when its `oldLayout` matches the current layout
(`none` records a mismatched transition, i.e. validation-undefined
behavior). -/
def applyBarrier : Option ImageLayout → ImageBarrier → Option ImageLayout
  | some l, b => if l = b.oldLayout then some b.newLayout else none
  | none, _ => none

/-- Run a list of barriers over a tracked layout. -/
def runBarriers (l : Option ImageLayout) (bs : List ImageBarrier) :
    Option ImageLayout :=
  bs.foldl applyBarrier l

/-- The storage image's layout after the barriers of one dispatched
frame, starting from layout `l`. -/
def frameStorageLayout (r : DispatchRecord) (l : ImageLayout) :
    Option ImageLayout :=
  runBarriers (some l) (storageBarriers r)

/-- The storage image's layout after `n` dispatched frames with no
resize in between, starting from layout `l`. -/
def iterFrames (r : DispatchRecord) : Nat → ImageLayout → Option ImageLayout
  | 0, l => some l
  | n + 1, l => (frameStorageLayout r l).bind (iterFrames r n)

/-! ## Frames in flight

`vkQueueWaitIdle(graphicsQueue)` at the end of `dispatch` blocks until
the graphics queue's submission has completed; since that submission
waits on the internal `computeFinished_` semaphore, which only the
frame's compute submission signals, graphics-queue idleness implies the
frame's compute submission has completed as well.  The wait is therefore
modelled as retiring all of the frame's pending GPU work. -/

/-- A frame-level view of a host action: a queue submission on behalf of
frame `frame`, or the full wait that retires all pending work. -/
inductive FrameAction where
  | fsubmit (frame : Nat)
  | fwaitAll
deriving DecidableEq, Repr

/-- Project the host actions of a dispatch for frame number `frame`
onto frame-level actions (recording is host-local and dropped). -/
def frameActionsOf (frame : Nat) (r : DispatchRecord) : List FrameAction :=
  r.hostActions.filterMap fun a =>
    match a with
    | .record _ _ => none
    | .submit _ _ => some (.fsubmit frame)
    | .queueWaitIdle .graphicsQ => some .fwaitAll
    | .queueWaitIdle .computeQ => some .fwaitAll

/-- One frame-level action applied to the set (as a deduplicated list)
of frames with pending GPU work. -/
def applyFrameAction (cur : List Nat) : FrameAction → List Nat
  | .fsubmit f => if f ∈ cur then cur else f :: cur
  | .fwaitAll => []

/-- The frames with pending GPU work after a sequence of frame-level
actions. -/
def pendingAfter (cur : List Nat) (acts : List FrameAction) : List Nat :=
  acts.foldl applyFrameAction cur

/-- The largest number of frames simultaneously having pending GPU work
at any point of a sequence of frame-level actions (including at the
start). -/
def maxPending (cur : List Nat) : List FrameAction → Nat
  | [] => cur.length
  | a :: rest => max cur.length (maxPending (applyFrameAction cur a) rest)

/-- The frame-level trace of `n` consecutive `dispatch` calls (frame
numbers `n-1, …, 0`), each producing the host actions of `r`. -/
def frameLoopTrace (r : DispatchRecord) : Nat → List FrameAction
  | 0 => []
  | n + 1 => frameActionsOf n r ++ frameLoopTrace r n

/-! ## The extent state machine (main loop × swapchain × compute) -/

/-- The extent-relevant state of a run: the live framebuffer size, the
swapchain's current extent, and the offscreen storage image's extent. -/
structure RenderState where
  fb : Extent2D
  swapExtent : Extent2D
  storageExtent : Extent2D
deriving DecidableEq, Repr

/-- The surface capabilities as a function of the live framebuffer
size, for the state machine: the presentation engine reports a defined
current extent equal to the framebuffer size. -/
def stateCaps (fb : Extent2D) : SurfaceCapabilities :=
  { currentExtent := fb, minImageExtent := fb, maxImageExtent := fb }

/-- `Swapchain::recreate`: rebuild the chain at the extent
`chooseSwapExtent` selects from the current surface capabilities and
framebuffer size (swapchain.cpp lines 177-190; the storage image is
untouched). -/
def swapRecreate (s : RenderState) : RenderState :=
  { s with swapExtent := chooseSwapExtent (stateCaps s.fb) s.fb }

/-- `ComputePipeline::recreate` / `createStorageImage`: destroy and
recreate the storage image at the swapchain's current extent
(compute_pipeline.cpp lines 131-139 and 308-319). -/
def computeRecreate (s : RenderState) : RenderState :=
  { s with storageExtent := s.swapExtent }

/-- The operations of a run, as the main loop can produce them:

* `resizeEvent f` — the window system changes the framebuffer size;
* `acquire res` — `Swapchain::acquireNextImage` whose first acquisition
  attempt returns `res`: on `VK_ERROR_OUT_OF_DATE_KHR` the chain is
  recreated internally (swapchain.cpp lines 205-215);
* `presentOp res` — `Swapchain::present` with presentation result
  `res`: on out-of-date or suboptimal the chain is recreated internally
  (swapchain.cpp lines 234-237);
* `dispatchOp` — `ComputePipeline::dispatch` (touches no extent);
* `pairedRecreate` — the main-loop resize path (main.cpp lines 89-93):
  `swapchain.recreate()` then `compute.recreate()`. -/
inductive Op where
  | resizeEvent (f : Extent2D)
  | acquire (res : VkResult)
  | presentOp (res : VkResult)
  | dispatchOp
  | pairedRecreate
deriving DecidableEq, Repr

/-- One operation applied to the extent state. -/
def step (s : RenderState) : Op → RenderState
  | .resizeEvent f => { s with fb := f }
  | .acquire res => if res = .errorOutOfDate then swapRecreate s else s
  | .presentOp res =>
    if res = .errorOutOfDate ∨ res = .suboptimal then swapRecreate s else s
  | .dispatchOp => s
  | .pairedRecreate => computeRecreate (swapRecreate s)

/-- Run a sequence of operations. -/
def run (s : RenderState) (ops : List Op) : RenderState :=
  ops.foldl step s

/-- The claimed invariant: the offscreen storage image's extent equals
the swapchain's current extent. -/
def extentInv (s : RenderState) : Prop :=
  s.storageExtent = s.swapExtent

instance (s : RenderState) : Decidable (extentInv s) := by
  unfold extentInv; infer_instance

/-- An operation that never triggers an internal-only chain recreation:
the acquisition result is not out-of-date, and the presentation result
is neither out-of-date nor suboptimal. -/
def noInternalRecreate : Op → Prop
  | .acquire res => res ≠ .errorOutOfDate
  | .presentOp res => res ≠ .errorOutOfDate ∧ res ≠ .suboptimal
  | _ => True

instance (op : Op) : Decidable (noInternalRecreate op) := by
  cases op <;> unfold noInternalRecreate <;> infer_instance

/-- A concrete start state for the extent state machine: everything at
1920 × 1080, the invariant holding. -/
def cexState : RenderState :=
  { fb := ⟨1920, 1080⟩, swapExtent := ⟨1920, 1080⟩, storageExtent := ⟨1920, 1080⟩ }

/-- A concrete operation sequence: the window is resized to 800 × 600
and the next acquisition attempt reports the chain out-of-date, so
`acquireNextImage` recreates the chain internally. -/
def cexOps : List Op := [.resizeEvent ⟨800, 600⟩, .acquire .errorOutOfDate]

/-! ## Helper lemmas -/

/-- A framebuffer size returned by the minimized-window wait loop has
both components nonzero. -/
theorem firstNonzeroFb_pos (reads : List Extent2D) (fb : Extent2D)
    (h : firstNonzeroFb reads = some fb) : 0 < fb.width ∧ 0 < fb.height := by
  induction reads with
  | nil => simp [firstNonzeroFb] at h
  | cons e rest ih =>
    by_cases hz : e.width = 0 ∨ e.height = 0
    · exact ih (by simpa [firstNonzeroFb, hz] using h)
    · have he : e = fb := by simpa [firstNonzeroFb, hz] using h
      subst he
      omega

/-- If every observed framebuffer size is zero-sized, the wait loop
never terminates. -/
theorem firstNonzeroFb_none (reads : List Extent2D)
    (h : ∀ f ∈ reads, f.width = 0 ∨ f.height = 0) :
    firstNonzeroFb reads = none := by
  induction reads with
  | nil => rfl
  | cons e rest ih =>
    have he : e.width = 0 ∨ e.height = 0 := h e (List.mem_cons_self _ _)
    simpa [firstNonzeroFb, he] using ih fun f hf => h f (List.mem_cons_of_mem _ hf)

/-- Clamping a positive value to a range with a positive upper bound is
positive. -/
theorem cppClamp_pos (v lo hi : Nat) (hv : 0 < v) (hhi : 0 < hi) :
    0 < cppClamp v lo hi := by
  unfold cppClamp
  split <;> [omega; skip]
  split <;> omega

/-! ## Theorems about the claims -/

/-- C3: when the first acquisition attempt reports the chain
out-of-date, `Swapchain::acquireNextImage` recreates the chain
internally and retries acquisition exactly once (one recreation, two
acquisition attempts); a retry result of success or suboptimal yields
the retried image index, any other retry result raises the fatal
acquisition error; and on no input are more than two acquisition
attempts ever made. -/
theorem acquire_stale_recreates_and_retries_once
    (firstRes : VkResult) (firstIdx retryIdx : Nat) (retryRes : VkResult)
    (hfst : firstRes = .errorOutOfDate) :
    (acquireNextImage firstRes firstIdx retryRes retryIdx).recreates = 1 ∧
    (acquireNextImage firstRes firstIdx retryRes retryIdx).attempts = 2 ∧
    ((retryRes = .success ∨ retryRes = .suboptimal) →
      (acquireNextImage firstRes firstIdx retryRes retryIdx).result = .ok retryIdx) ∧
    (retryRes ≠ .success → retryRes ≠ .suboptimal →
      (acquireNextImage firstRes firstIdx retryRes retryIdx).result =
        .error "[Swapchain] Failed to acquire swapchain image.") ∧
    (∀ f : VkResult, ∀ i : Nat, ∀ r : VkResult, ∀ ri : Nat,
      (acquireNextImage f i r ri).attempts ≤ 2) := by
  subst hfst
  refine ⟨?_, ?_, ?_, ?_, ?_⟩
  · cases retryRes <;> simp [acquireNextImage]
  · cases retryRes <;> simp [acquireNextImage]
  · rintro (h | h) <;> subst h <;> simp [acquireNextImage]
  · intro h1 h2
    cases retryRes <;> simp_all [acquireNextImage]
  · intro f i r ri
    cases f <;> cases r <;> simp [acquireNextImage]

/-- Witness for C3: a stale first attempt followed by a suboptimal
retry yields one recreation and the retried index; a stale retry after
a stale first attempt is fatal. -/
theorem acquire_stale_recreates_and_retries_once_witness :
    (acquireNextImage .errorOutOfDate 0 .suboptimal 5).recreates = 1 ∧
    (acquireNextImage .errorOutOfDate 0 .suboptimal 5).attempts = 2 ∧
    (acquireNextImage .errorOutOfDate 0 .suboptimal 5).result = .ok 5 ∧
    (acquireNextImage .errorOutOfDate 0 .errorOutOfDate 5).result =
      .error "[Swapchain] Failed to acquire swapchain image." := by
  have h1 := acquire_stale_recreates_and_retries_once .errorOutOfDate 0 5 .suboptimal rfl
  have h2 := acquire_stale_recreates_and_retries_once .errorOutOfDate 0 5 .errorOutOfDate rfl
  exact ⟨h1.1, h1.2.1, h1.2.2.1 (Or.inr rfl), h2.2.2.2.1 (by simp) (by simp)⟩

/-- C10: a suboptimal (but not out-of-date) first acquisition result is
treated exactly like success — the acquired index is returned with no
internal recreation, no second attempt and no error — and an internal
recreation on acquire happens only for an out-of-date result. -/
theorem acquire_suboptimal_like_success
    (idx retryIdx : Nat) (retryRes : VkResult) :
    (acquireNextImage .suboptimal idx retryRes retryIdx).result = .ok idx ∧
    (acquireNextImage .suboptimal idx retryRes retryIdx).recreates = 0 ∧
    (acquireNextImage .suboptimal idx retryRes retryIdx).attempts = 1 ∧
    (∀ f : VkResult, ∀ i : Nat, ∀ r : VkResult, ∀ ri : Nat,
      (acquireNextImage f i r ri).recreates ≠ 0 → f = .errorOutOfDate) := by
  refine ⟨by simp [acquireNextImage], by simp [acquireNextImage],
    by simp [acquireNextImage], ?_⟩
  intro f i r ri h
  cases f <;> simp_all [acquireNextImage]

/-- Witness for C10: a suboptimal acquisition at index 3 returns index
3 with no recreation, and the only-out-of-date-recreates conjunct
applied to a concrete out-of-date run. -/
theorem acquire_suboptimal_like_success_witness :
    (acquireNextImage .suboptimal 3 .errorOther 9).result = .ok 3 ∧
    (acquireNextImage .suboptimal 3 .errorOther 9).recreates = 0 ∧
    (acquireNextImage .suboptimal 3 .errorOther 9).attempts = 1 := by
  have h := acquire_suboptimal_like_success 3 9 .errorOther
  exact ⟨h.1, h.2.1, h.2.2.1⟩

/-- C4: `Swapchain::present` absorbs a stale or suboptimal presentation
result by recreating the chain internally and returning without error;
a successful presentation returns normally with no recreation; and any
other non-success result raises the fatal presentation error without
recreating. -/
theorem present_staleness_policy :
    (present .errorOutOfDate).result = .ok () ∧
    (present .errorOutOfDate).recreates = 1 ∧
    (present .suboptimal).result = .ok () ∧
    (present .suboptimal).recreates = 1 ∧
    (present .success).result = .ok () ∧
    (present .success).recreates = 0 ∧
    (∀ r : VkResult, r ≠ .success → r ≠ .errorOutOfDate → r ≠ .suboptimal →
      (present r).result = .error "[Swapchain] Failed to present swapchain image." ∧
      (present r).recreates = 0) := by
  refine ⟨by simp [present], by simp [present], by simp [present], by simp [present],
    by simp [present], by simp [present], ?_⟩
  intro r h1 h2 h3
  cases r <;> simp_all [present]

/-- Witness for C4: the fatal branch at the concrete only-other
result. -/
theorem present_staleness_policy_witness :
    (present .errorOther).result =
      .error "[Swapchain] Failed to present swapchain image." ∧
    (present .errorOther).recreates = 0 := by
  exact present_staleness_policy.2.2.2.2.2.2 .errorOther
    (by simp) (by simp) (by simp)

/-- C5: swapchain (re)creation uses the surface's reported current
extent when defined (width different from the `uint32_t` maximum) and
otherwise clamps the live framebuffer size component-wise to the
surface's min/max image extent; and `recreate` never produces a
zero-sized extent — provided the surface's defined current extent
tracks the framebuffer size and its maximum image extent is positive,
any extent it produces is positive in both components, and while every
observed framebuffer size is zero-sized it keeps blocking (produces no
extent at all). -/
theorem recreate_extent_selection
    (caps : SurfaceCapabilities) (fb : Extent2D)
    (capsF : Extent2D → SurfaceCapabilities) (reads : List Extent2D) :
    (caps.currentExtent.width ≠ uint32Max →
      chooseSwapExtent caps fb = caps.currentExtent) ∧
    (caps.currentExtent.width = uint32Max →
      chooseSwapExtent caps fb =
        ⟨cppClamp fb.width caps.minImageExtent.width caps.maxImageExtent.width,
         cppClamp fb.height caps.minImageExtent.height caps.maxImageExtent.height⟩) ∧
    ((∀ f, (capsF f).currentExtent.width ≠ uint32Max → (capsF f).currentExtent = f) →
      (∀ f, 0 < (capsF f).maxImageExtent.width ∧ 0 < (capsF f).maxImageExtent.height) →
      ∀ e, recreateExtent capsF reads = some e → 0 < e.width ∧ 0 < e.height) ∧
    ((∀ f ∈ reads, f.width = 0 ∨ f.height = 0) → recreateExtent capsF reads = none) := by
  refine ⟨fun h => by simp [chooseSwapExtent, h], fun h => by simp [chooseSwapExtent, h],
    ?_, ?_⟩
  · intro hcur hmax e he
    rcases hfb : firstNonzeroFb reads with _ | fb0
    · simp [recreateExtent, hfb] at he
    · have hpos := firstNonzeroFb_pos reads fb0 hfb
      have he' : chooseSwapExtent (capsF fb0) fb0 = e := by
        simpa [recreateExtent, hfb] using he
      by_cases hdef : (capsF fb0).currentExtent.width ≠ uint32Max
      · have : e = fb0 := by
          rw [← he', chooseSwapExtent, if_pos hdef, hcur fb0 hdef]
        rw [this]; exact hpos
      · push_neg at hdef
        rw [← he', chooseSwapExtent, if_neg (by simp [hdef])]
        exact ⟨cppClamp_pos _ _ _ hpos.1 (hmax fb0).1,
          cppClamp_pos _ _ _ hpos.2 (hmax fb0).2⟩
  · intro h
    simp [recreateExtent, firstNonzeroFb_none reads h]

/-- Witness for C5: the defined-current-extent branch at a concrete
capability record, and a concrete recreation whose observed framebuffer
sizes start zero-sized (minimized) and resolve to 1920 × 1080, yielding
a positive extent. -/
theorem recreate_extent_selection_witness :
    chooseSwapExtent ⟨⟨1024, 768⟩, ⟨1, 1⟩, ⟨4096, 4096⟩⟩ ⟨50, 50⟩ = ⟨1024, 768⟩ ∧
    (∃ e, recreateExtent (fun f => ⟨f, ⟨1, 1⟩, ⟨4096, 4096⟩⟩)
        [⟨0, 0⟩, ⟨1920, 1080⟩] = some e ∧ 0 < e.width ∧ 0 < e.height) := by
  constructor
  · exact (recreate_extent_selection ⟨⟨1024, 768⟩, ⟨1, 1⟩, ⟨4096, 4096⟩⟩ ⟨50, 50⟩
      (fun f => ⟨f, ⟨1, 1⟩, ⟨4096, 4096⟩⟩) []).1 (by decide)
  · refine ⟨⟨1920, 1080⟩, by decide, ?_⟩
    exact (recreate_extent_selection ⟨⟨1024, 768⟩, ⟨1, 1⟩, ⟨4096, 4096⟩⟩ ⟨50, 50⟩
      (fun f => ⟨f, ⟨1, 1⟩, ⟨4096, 4096⟩⟩) [⟨0, 0⟩, ⟨1920, 1080⟩]).2.2.1
      (fun f _ => rfl) (fun f => by dsimp only; exact ⟨by norm_num, by norm_num⟩)
      ⟨1920, 1080⟩ (by decide)

/-- C6: for every extent whose components stay below the `uint32_t`
wrap-around threshold, the dispatched workgroup counts are exactly
`(width + 15) / 16` and `(height + 15) / 16` in integer arithmetic,
these are the ceilings of `extent / 16` (they tile the full extent with
fewer than 16 pixels of overhang per axis), the recorded compute stream
contains that dispatch with depth 1, and 1920 × 1080 yields 120 × 68
workgroups. -/
theorem dispatch_workgroup_counts (w h : Nat)
    (hw : w + 15 < 2 ^ 32) (hh : h + 15 < 2 ^ 32) :
    workgroupCounts ⟨w, h⟩ = ((w + 15) / 16, (h + 15) / 16) ∧
    (w ≤ 16 * ((w + 15) / 16) ∧ 16 * ((w + 15) / 16) < w + 16) ∧
    (h ≤ 16 * ((h + 15) / 16) ∧ 16 * ((h + 15) / 16) < h + 16) ∧
    Cmd.dispatchCmd ((w + 15) / 16) ((h + 15) / 16) 1 ∈ dispatchComputeCmds ⟨w, h⟩ ∧
    workgroupCounts ⟨1920, 1080⟩ = (120, 68) := by
  refine ⟨?_, by omega, by omega, ?_, by decide⟩
  · unfold workgroupCounts
    rw [Nat.mod_eq_of_lt hw, Nat.mod_eq_of_lt hh]
  · simp only [dispatchComputeCmds, workgroupCounts]
    rw [Nat.mod_eq_of_lt hw, Nat.mod_eq_of_lt hh]
    simp

/-- Witness for C6: the workgroup counts at the 1920 × 1080 extent. -/
theorem dispatch_workgroup_counts_witness :
    workgroupCounts ⟨1920, 1080⟩ = ((1920 + 15) / 16, (1080 + 15) / 16) ∧
    workgroupCounts ⟨1920, 1080⟩ = (120, 68) := by
  have h := dispatch_workgroup_counts 1920 1080 (by norm_num) (by norm_num)
  exact ⟨h.1, h.2.2.2.2⟩

/-- C7: in every dispatch, the compute-queue submission waits on the
caller's available-signal at the compute stage exactly when one is
provided and signals the internal compute-finished semaphore, the
graphics-queue submission waits on that internal semaphore at the blit
stage and signals the caller's ready-signal (at completion of all
commands) exactly when one is provided, and every semaphore the
graphics submission waits on is one the compute submission signals, so
the transfer work is gated on the compute work's completion signal. -/
theorem dispatch_semaphore_wiring (extent : Extent2D) (imageIndex cf : Nat)
    (waitSem signalSem : Option Nat) :
    (∀ w, waitSem = some w →
      (dispatchRecord extent imageIndex waitSem signalSem cf).computeSubmission.waits =
        [{ sem := w, stage := .computeShader }]) ∧
    (waitSem = none →
      (dispatchRecord extent imageIndex waitSem signalSem cf).computeSubmission.waits = []) ∧
    (dispatchRecord extent imageIndex waitSem signalSem cf).computeSubmission.signals =
      [{ sem := cf, stage := .computeShader }] ∧
    (dispatchRecord extent imageIndex waitSem signalSem cf).graphicsSubmission.waits =
      [{ sem := cf, stage := .blit }] ∧
    (∀ s, signalSem = some s →
      (dispatchRecord extent imageIndex waitSem signalSem cf).graphicsSubmission.signals =
        [{ sem := s, stage := .allCommands }]) ∧
    (signalSem = none →
      (dispatchRecord extent imageIndex waitSem signalSem cf).graphicsSubmission.signals = []) ∧
    (∀ op ∈ (dispatchRecord extent imageIndex waitSem signalSem cf).graphicsSubmission.waits,
      ∃ op' ∈ (dispatchRecord extent imageIndex waitSem signalSem cf).computeSubmission.signals,
        op'.sem = op.sem) := by
  refine ⟨?_, ?_, rfl, rfl, ?_, ?_, ?_⟩
  · rintro w rfl; rfl
  · rintro rfl; rfl
  · rintro s rfl; rfl
  · rintro rfl; rfl
  · intro op hop
    refine ⟨{ sem := cf, stage := .computeShader }, by simp [dispatchRecord, computeSubmit], ?_⟩
    simp [dispatchRecord, graphicsSubmit] at hop
    simp [hop]

/-- Witness for C7: the wiring at a concrete frame — available-signal
handle 11, ready-signal handle 12, internal semaphore 7. -/
theorem dispatch_semaphore_wiring_witness :
    (dispatchRecord ⟨1920, 1080⟩ 0 (some 11) (some 12) 7).computeSubmission.waits =
      [{ sem := 11, stage := .computeShader }] ∧
    (dispatchRecord ⟨1920, 1080⟩ 0 (some 11) (some 12) 7).computeSubmission.signals =
      [{ sem := 7, stage := .computeShader }] ∧
    (dispatchRecord ⟨1920, 1080⟩ 0 (some 11) (some 12) 7).graphicsSubmission.waits =
      [{ sem := 7, stage := .blit }] ∧
    (dispatchRecord ⟨1920, 1080⟩ 0 (some 11) (some 12) 7).graphicsSubmission.signals =
      [{ sem := 12, stage := .allCommands }] := by
  have h := dispatch_semaphore_wiring ⟨1920, 1080⟩ 0 7 (some 11) (some 12)
  exact ⟨h.1 11 rfl, h.2.2.1, h.2.2.2.1, h.2.2.2.2.1 12 rfl⟩

/-- C1: the implemented dispatch path pushes no per-frame payload — at
the concrete frame (extent 1920 × 1080, image index 0, available-signal
1, ready-signal 2, internal semaphore 3) the recorded compute and
graphics command streams contain zero uses of the per-dispatch
data-push mechanism (the claim requires exactly one), and the pipeline
layout declares zero push-constant ranges, so no such push could even
be recorded against it. -/
theorem dispatch_pushes_no_payload :
    ((dispatchRecord ⟨1920, 1080⟩ 0 (some 1) (some 2) 3).computeCmds ++
      (dispatchRecord ⟨1920, 1080⟩ 0 (some 1) (some 2) 3).graphicsCmds).countP
        Cmd.isPushConstants = 0 ∧
    createPipelineLayout.pushConstantRanges = [] := by
  exact ⟨by decide, rfl⟩

/-- C9: each dispatched frame's recorded barriers on the offscreen
storage image are exactly the general → transfer-source transition
followed by the transfer-source → general transition, one frame maps
the general/writable layout back to itself, and for every number `n` of
dispatched frames with no resize in between, the layout at the start of
frame `n + 1` equals the general/writable layout it started from. -/
theorem storage_layout_round_trip (extent : Extent2D) (imageIndex cf : Nat)
    (waitSem signalSem : Option Nat) (n : Nat) :
    storageBarriers (dispatchRecord extent imageIndex waitSem signalSem cf) =
      [storageToSrcBarrier, storageBackBarrier] ∧
    frameStorageLayout (dispatchRecord extent imageIndex waitSem signalSem cf)
      .general = some .general ∧
    iterFrames (dispatchRecord extent imageIndex waitSem signalSem cf) n
      .general = some .general := by
  refine ⟨rfl, rfl, ?_⟩
  induction n with
  | zero => rfl
  | succ k ih =>
    simpa [iterFrames, frameStorageLayout, runBarriers, applyBarrier,
      storageToSrcBarrier, storageBackBarrier] using ih

/-- C8: every dispatch's final host action is the blocking wait for
graphics-queue idleness, after any number `n` of dispatched frames no
frame has pending GPU work, and at every point of the frame loop at
most one frame has pending GPU work — so no two frames access the
offscreen target concurrently. -/
theorem dispatch_caps_frames_in_flight (extent : Extent2D) (imageIndex cf : Nat)
    (waitSem signalSem : Option Nat) (n : Nat) :
    (dispatchRecord extent imageIndex waitSem signalSem cf).hostActions.getLast? =
      some (.queueWaitIdle .graphicsQ) ∧
    pendingAfter []
      (frameLoopTrace (dispatchRecord extent imageIndex waitSem signalSem cf) n) = [] ∧
    maxPending []
      (frameLoopTrace (dispatchRecord extent imageIndex waitSem signalSem cf) n) ≤ 1 := by
  refine ⟨rfl, ?_, ?_⟩
  · induction n with
    | zero => rfl
    | succ k ih =>
      simpa [frameLoopTrace, frameActionsOf, dispatchRecord, pendingAfter,
        applyFrameAction] using ih
  · induction n with
    | zero => simp [frameLoopTrace, maxPending]
    | succ k ih =>
      have hstep : frameLoopTrace (dispatchRecord extent imageIndex waitSem signalSem cf)
          (k + 1) =
          FrameAction.fsubmit k :: FrameAction.fsubmit k :: FrameAction.fwaitAll ::
            frameLoopTrace (dispatchRecord extent imageIndex waitSem signalSem cf) k := by
        simp [frameLoopTrace, frameActionsOf, dispatchRecord]
      rw [hstep]
      simp [maxPending, applyFrameAction]
      omega

/-- C2 counterexample: from a state satisfying the storage-extent
invariant at 1920 × 1080, a window resize to 800 × 600 followed by an
acquisition whose first attempt reports the chain out-of-date (an
internal chain recreation) leaves the swapchain at 800 × 600 while the
offscreen storage image stays at 1920 × 1080 — the invariant does not
hold at every point of every acquire/present/dispatch/recreate
sequence. -/
theorem extent_invariant_counterexample :
    extentInv cexState ∧ ¬ extentInv (run cexState cexOps) := by
  decide

/-- C2 amended: the offscreen storage image's extent equals the
swapchain's current extent at the end of every operation sequence that
starts from a state satisfying it and contains no internal-only chain
recreation (no out-of-date acquire, no out-of-date-or-suboptimal
present) — in particular across resizes handled by the paired
recreate-both path, dispatches, successful acquisitions and successful
presentations; and the paired recreate path re-establishes the
invariant from any state whatsoever. -/
theorem extent_invariant_amended (s : RenderState) (ops : List Op)
    (hs : extentInv s) (hops : ∀ op ∈ ops, noInternalRecreate op) :
    extentInv (run s ops) ∧ ∀ t : RenderState, extentInv (step t .pairedRecreate) := by
  refine ⟨?_, fun t => rfl⟩
  induction ops generalizing s with
  | nil => exact hs
  | cons a rest ih =>
    have ha : noInternalRecreate a := hops a (List.mem_cons_self _ _)
    have hrest : ∀ op ∈ rest, noInternalRecreate op :=
      fun op hop => hops op (List.mem_cons_of_mem _ hop)
    refine ih (step s a) ?_ hrest
    cases a with
    | resizeEvent f => exact hs
    | acquire res =>
      simp only [step, if_neg ha]
      exact hs
    | presentOp res =>
      have : ¬ (res = VkResult.errorOutOfDate ∨ res = VkResult.suboptimal) := by
        rcases ha with ⟨h1, h2⟩
        rintro (h | h) <;> [exact h1 h; exact h2 h]
      simp only [step, if_neg this]
      exact hs
    | dispatchOp => exact hs
    | pairedRecreate => rfl

/-- Witness for C2 (amended): a concrete run — resize to 800 × 600
handled by the paired recreate path, then a successful acquisition, a
dispatch and a successful presentation — preserves the invariant, and
the final extents are both 800 × 600. -/
theorem extent_invariant_amended_witness :
    extentInv (run cexState
      [.resizeEvent ⟨800, 600⟩, .pairedRecreate, .acquire .success,
        .dispatchOp, .presentOp .success]) ∧
    run cexState
      [.resizeEvent ⟨800, 600⟩, .pairedRecreate, .acquire .success,
        .dispatchOp, .presentOp .success] =
      { fb := ⟨800, 600⟩, swapExtent := ⟨800, 600⟩, storageExtent := ⟨800, 600⟩ } := by
  constructor
  · exact (extent_invariant_amended cexState
      [.resizeEvent ⟨800, 600⟩, .pairedRecreate, .acquire .success,
        .dispatchOp, .presentOp .success] (by decide) (by decide)).1
  · decide

end Gargantua
